import Mathlib

/-!
Verification development for the frenetic stackful-coroutine core
(`src/lib.rs`). The machine-level context-switch primitives (`jump_init`,
`jump_swap`, `jump_into`) deterministically interleave exactly one parent
and one child on a single thread, so the observable behaviour of the
library is a sequential state machine. We embed it shallowly:

* the user closure (a `FnOnce(Control<Y, R>) -> Result<Finished<R>, Canceled>`
  together with any side effects it performs) is a finite syntax tree
  `Client Y R E`: it can emit an observable side effect (`emit`), call
  `Control::r#yield` (`doYield`, whose continuation receives the
  `Result<Control, Canceled>` that `r#yield` returns), or return from the
  closure (`pure`, carrying the closure's `Result<Finished<R>, Canceled>`);
* `runSlice` executes the child between two context switches, following
  `Control::r#yield` (lib.rs lines 263-286): with a null `Context.arg` a
  yield returns `Err(Canceled)` immediately and the child keeps running,
  with a non-null `arg` the yield writes `Yielded(value)` through `arg`
  and suspends;
* `Coroutine.resume` and `Coroutine.drop` mirror `Generator::resume`
  (lines 300-327) and `Drop for Coroutine` (lines 330-340), threading the
  nullability of `Context.arg` explicitly.
-/

namespace Frenetic

/-- Rust's `Result<T, E>`. -/
inductive Result (T E : Type) where
  | Ok : T → Result T E
  | Err : E → Result T E
deriving DecidableEq

/-- The library's `GeneratorState<Y, R>` (lib.rs lines 145-160): the value
transferred from child to parent through `Context.arg`. -/
inductive GeneratorState (Y R : Type) where
  | Yielded : Y → GeneratorState Y R
  | Complete : R → GeneratorState Y R
deriving DecidableEq

/-- `pub struct Finished<R>(R)` (lib.rs line 162). -/
structure Finished (R : Type) where
  val : R
deriving DecidableEq

/-- `pub struct Canceled(())` (lib.rs line 164). -/
structure Canceled where
deriving DecidableEq

/-- The body of a user closure, as the tree of the operations it can
perform against its `Control` handle. `E` is the type of observable side
effects (e.g. the `cancelled = true` flag of the `cancel` test);
`doYield y k` is a call `c.r#yield(y)` whose continuation `k` consumes the
`Result<Control, Canceled>` result; `pure v` is the closure returning `v`
to the trampoline. -/
inductive Client (Y R E : Type) where
  | pure : Result (Finished R) Canceled → Client Y R E
  | emit : E → Client Y R E → Client Y R E
  | doYield : Y → (Result Unit Canceled → Client Y R E) → Client Y R E

/-- Where a child scheduling slice ends: either the child suspended inside
`Control::r#yield` (storing the yielded value it wrote through
`Context.arg` and the continuation waiting after the `jump_swap`), or the
closure returned to the trampoline with a `Result<Finished<R>, Canceled>`. -/
inductive SliceEnd (Y R E : Type) where
  | suspended : Y → (Result Unit Canceled → Client Y R E) → SliceEnd Y R E
  | finished : Result (Finished R) Canceled → SliceEnd Y R E

/-- Run the child from the current point to its next context switch.
`argNN` says whether `Context.arg` is non-null during this slice (the
parent only writes `arg` while the child is suspended, so it is constant
within a slice). Per `Control::r#yield` (lib.rs lines 263-286): with a
null `arg` the yield returns `Err(Canceled)` without switching and the
child continues; with a non-null `arg` it writes `Yielded(value)` through
`arg` and `jump_swap`s to the parent. Returns the emitted side effects in
order, and where the slice ended. -/
def runSlice (argNN : Bool) : Client Y R E → List E × SliceEnd Y R E
  | .pure v => ([], .finished v)
  | .emit e c =>
    let r := runSlice argNN c
    (e :: r.1, r.2)
  | .doYield y k =>
    if argNN then ([], .suspended y k)
    else runSlice argNN (k (.Err ⟨⟩))

/-- The write the trampoline performs through `Context.arg` after the
closure returns (lib.rs lines 193-197): if the closure produced
`Ok(Finished(r))` and `arg` is non-null, write `Complete(r)`; otherwise
write nothing (`none` = the parent's transfer slot stays uninitialized). -/
def trampolineFinish (argNN : Bool) (v : Result (Finished R) Canceled) :
    Option (GeneratorState Y R) :=
  match v with
  | .Ok f => if argNN then some (.Complete f.val) else none
  | .Err _ => none

/-- The child side of a suspended coroutine: `fresh` is the trampoline
parked at its first `jump_swap` (lib.rs line 189) with the closure not yet
started; `atYield` is the closure parked inside `Control::r#yield` at the
`jump_swap` of line 276, with `k` the continuation that receives the
result of the post-swap null check (lines 280-285). -/
inductive ChildSt (Y R E : Type) where
  | fresh : Client Y R E → ChildSt Y R E
  | atYield : (Result Unit Canceled → Client Y R E) → ChildSt Y R E

/-- The client program the child continues with when the parent swaps into
it while `Context.arg` is (non-)null: a fresh trampoline starts the
closure; a child parked in `r#yield` first performs the post-swap null
check of lib.rs lines 280-282 and passes `Ok`/`Err(Canceled)` on. -/
def ChildSt.client (st : ChildSt Y R E) (argNN : Bool) : Client Y R E :=
  match st with
  | .fresh c => c
  | .atYield k => k (if argNN then .Ok () else .Err ⟨⟩)

/-- Observable state of a `Coroutine` between two parent operations:
`ctx` models the `Option<&mut Context>` field (lib.rs line 166), holding
the suspended child when `some`; `argNN` records whether `Context.arg` is
currently non-null. -/
structure CoSys (Y R E : Type) where
  ctx : Option (ChildSt Y R E)
  argNN : Bool

/-- `STACK_ALIGNMENT` (lib.rs line 73). -/
def STACK_ALIGNMENT : Nat := 16

/-- `STACK_MINIMUM` (lib.rs line 74). -/
def STACK_MINIMUM : Nat := 4096

/-- Rust's `pointer::align_offset` for a byte pointer at address `p`: the
number of bytes to add to `p` to reach the next multiple of `a`. -/
def align_offset (p a : Nat) : Nat := (a - p % a) % a

/-- The stack-top address `Coroutine::new` passes to `jump_init`
(lib.rs lines 233-234): `top = base + len` then
`top = top - top.align_offset(STACK_ALIGNMENT)`. -/
def newTop (base len : Nat) : Nat :=
  base + len - align_offset (base + len) STACK_ALIGNMENT

/-- Rounding an address down to a multiple of `a`, the operation the spec
calls `align_down`. -/
def align_down (p a : Nat) : Nat := p - p % a

/-- `Coroutine::new` (lib.rs lines 217-249) at the state-machine level:
`assert!(stack.len() >= STACK_MINIMUM)` aborts on violation (`none`);
otherwise `jump_init` runs the trampoline far enough to zero-initialize
the `Context` (so `arg` is null) and park the child at its first
`jump_swap`, and the closure is moved onto the child stack. -/
def Coroutine.new (stackLen : Nat) (c : Client Y R E) : Option (CoSys Y R E) :=
  if STACK_MINIMUM ≤ stackLen then some ⟨some (.fresh c), false⟩ else none

/-- What one call to `Generator::resume` returns: `panicked` is the
`panic!("Called Generator::resume() after completion!")` of lib.rs
line 306; `value g` is a normal return of `g`; `uninit` marks the
undefined behaviour of reading the transfer slot when the child never
wrote it (closure returned `Err(Canceled)` during a resume). -/
inductive ResumeOut (Y R : Type) where
  | panicked : ResumeOut Y R
  | value : GeneratorState Y R → ResumeOut Y R
  | uninit : ResumeOut Y R

/-- `Generator::resume` for `Coroutine` (lib.rs lines 300-327). With a
live child it sets `Context.arg` to the fresh transfer slot (so the child
slice runs with `argNN = true`), `jump_swap`s into the child, clears
`arg` back to null on return, then reads the slot: `Complete(r)` clears
`self.0` to `None` and returns `Complete(r)`; otherwise the slot holds the
`Yielded` value the child wrote in `r#yield`. If the slot was never
written (closure returned `Err(Canceled)`: the trampoline wrote nothing
and jumped away), reading it is undefined behaviour, marked `uninit`; the
child context is gone in that case. Returns (result, emitted side
effects, new state). -/
def Coroutine.resume (s : CoSys Y R E) : ResumeOut Y R × List E × CoSys Y R E :=
  match s.ctx with
  | none => (.panicked, [], s)
  | some st =>
    match runSlice true (st.client true) with
    | (es, .suspended y k) => (.value (.Yielded y), es, ⟨some (.atYield k), false⟩)
    | (es, .finished v) =>
      match trampolineFinish true v with
      | some (.Complete r) => (.value (.Complete r), es, ⟨none, false⟩)
      | some (.Yielded y) => (.value (.Yielded y), es, ⟨none, false⟩)
      | none => (.uninit, es, ⟨none, false⟩)

/-- `Drop for Coroutine` (lib.rs lines 330-340): if `self.0` is still
`Some`, take it and `jump_swap` into the child **without touching
`Context.arg`**; the child slice therefore runs with the current `argNN`
(null in every reachable state), drives the closure to its return, the
trampoline writes nothing through the null `arg` and `jump_into`s back to
the drop, which completes. If `self.0` is `None` nothing happens. Returns
(emitted side effects, state after the drop). -/
def Coroutine.drop (s : CoSys Y R E) : List E × CoSys Y R E :=
  match s.ctx with
  | none => ([], s)
  | some st => ((runSlice s.argNN (st.client s.argNN)).1, ⟨none, s.argNN⟩)

/-- States reachable through the public interface: a successful
`Coroutine::new`, then any sequence of `resume` and `drop`. -/
inductive Reachable {Y R E : Type} : CoSys Y R E → Prop where
  | init : ∀ (len : Nat) (c : Client Y R E) (s : CoSys Y R E),
      Coroutine.new len c = some s → Reachable s
  | res : ∀ s, Reachable s → Reachable (Coroutine.resume s).2.2
  | drp : ∀ s, Reachable s → Reachable (Coroutine.drop s).2

/-- `Control::r#yield` (lib.rs lines 263-286) as a function of the
nullability of `Context.arg` at entry (`entryNN`) and after the
`jump_swap` back into the child (`afterNN`). First component: the value
written through `arg` before the swap (`none` = nothing written, no
swap); second: the `Result` returned to the closure. -/
def rYield (y : Y) (entryNN afterNN : Bool) :
    Option (GeneratorState Y R) × Result Unit Canceled :=
  if entryNN then
    if afterNN then (some (.Yielded y), .Ok ())
    else (some (.Yielded y), .Err ⟨⟩)
  else (none, .Err ⟨⟩)

/-- `Control::done` (lib.rs lines 289-291): `Ok(Finished(arg))`. The
`Control`'s borrowed `Context` (abstracted as `ctx`) is passed through
untouched and no jump primitive is involved. -/
def Control.done (ctx : α) (arg : R) : Result (Finished R) E × α :=
  (.Ok ⟨arg⟩, ctx)

/-- Concrete closure continuation used by witnesses: after a successful
yield the closure calls `done(2)`; on `Err(Canceled)` it sets a flag
(emits `true`, like the `cancelled = true` of the `cancel` test) and
propagates the error. -/
def wK : Result Unit Canceled → Client Nat Nat Bool :=
  fun r =>
    match r with
    | .Ok _ => .pure (.Ok ⟨2⟩)
    | .Err _ => .emit true (.pure (.Err ⟨⟩))

/-- Concrete closure used by witnesses: `let c = c.r#yield(1)?; c.done(2)`
with a cancellation flag on the error path. -/
def wClient : Client Nat Nat Bool := .doYield 1 wK

/-- Freshly constructed witness coroutine. -/
def wS : CoSys Nat Nat Bool := ⟨some (.fresh wClient), false⟩

/-- Concrete closure that immediately calls `done(7)`. -/
def wDone : Client Nat Nat Bool := .pure (.Ok ⟨7⟩)

/-- Freshly constructed coroutine around `wDone`. -/
def wSDone : CoSys Nat Nat Bool := ⟨some (.fresh wDone), false⟩

/-- Witness coroutine suspended at the yield of `wClient`. -/
def wSAtYield : CoSys Nat Nat Bool := ⟨some (.atYield wK), false⟩

/-! Helper lemmas shared by the claim theorems. -/

theorem resume_argNN_false (s : CoSys Y R E) (h : s.argNN = false) :
    (Coroutine.resume s).2.2.argNN = false := by
  obtain ⟨ctx, nn⟩ := s
  cases ctx with
  | none => simpa [Coroutine.resume] using h
  | some st =>
    unfold Coroutine.resume
    rcases hr : runSlice true (st.client true) with ⟨es, se⟩
    cases se with
    | suspended y k => simp [hr]
    | finished v =>
      rcases hv : trampolineFinish (Y := Y) true v with _ | g
      · simp [hr, hv]
      · cases g <;> simp [hr, hv]

theorem drop_argNN_eq (s : CoSys Y R E) :
    (Coroutine.drop s).2.argNN = s.argNN := by
  obtain ⟨ctx, nn⟩ := s
  cases ctx <;> simp [Coroutine.drop]

theorem new_argNN_false (len : Nat) (c : Client Y R E) (s : CoSys Y R E)
    (h : Coroutine.new len c = some s) : s.argNN = false := by
  unfold Coroutine.new at h
  split at h
  · cases h; rfl
  · cases h

theorem reachable_argNN_false (s : CoSys Y R E) (h : Reachable s) :
    s.argNN = false := by
  induction h with
  | init len c s h => exact new_argNN_false len c s h
  | res s _ ih => exact resume_argNN_false s ih
  | drp s _ ih => rw [drop_argNN_eq]; exact ih

/-! Claim theorems. -/

/-- C4: refuted on the code. `Coroutine::new` computes
`top.sub(top.align_offset(16))`, but `align_offset` is the number of bytes
to ADD to reach alignment, so subtracting it aligns only when
`top % 16 ∈ {0, 8}`. For a stack buffer at base address 4 with length 4096
(accepted: 4096 ≥ STACK_MINIMUM), `top = 4100 ≡ 4 (mod 16)`: the code
passes `4100 - 12 = 4088 ≡ 8 (mod 16)` to `jump_init`, which is not a
multiple of 16 and differs from `align_down(4100, 16) = 4096`. -/
theorem c4_top_misaligned_at_4_4096 :
    STACK_MINIMUM ≤ 4096 ∧
    newTop 4 4096 = 4088 ∧
    align_down (4 + 4096) STACK_ALIGNMENT = 4096 ∧
    ¬ STACK_ALIGNMENT ∣ newTop 4 4096 ∧
    newTop 4 4096 ≠ align_down (4 + 4096) STACK_ALIGNMENT := by
  refine ⟨by decide, by decide, by decide, by decide, by decide⟩

/-- C5: `Control::r#yield` returns `Err(Canceled)` exactly when
`Context.arg` is null at entry or after the swap back; with a non-null
entry `arg` it writes `Yielded(value)` through `arg` before swapping; and
when `arg` is non-null both at entry and after the swap it returns
`Ok(self)`. -/
theorem c5_yield_cancel_iff (Y R : Type) (y : Y) (e a : Bool) :
    ((rYield (R := R) y e a).2 = .Err ⟨⟩ ↔ (e = false ∨ a = false)) ∧
    (rYield (R := R) y false a).1 = none ∧
    (rYield (R := R) y true a).1 = some (.Yielded y) ∧
    (rYield (R := R) y true true).2 = .Ok () := by
  cases e <;> cases a <;> simp [rYield]

/-- C6: `Coroutine::new` aborts (the `assert!(stack.len() >= STACK_MINIMUM)`
fails) exactly when the stack is shorter than 4096 bytes; a stack of
exactly 4096 bytes passes the assertion and construction proceeds. -/
theorem c6_stack_minimum (Y R E : Type) (len : Nat) (c : Client Y R E) :
    (Coroutine.new len c = none ↔ len < STACK_MINIMUM) ∧
    (Coroutine.new STACK_MINIMUM c).isSome = true := by
  refine ⟨?_, by simp [Coroutine.new]⟩
  unfold Coroutine.new
  split <;> rename_i h <;> simp <;> omega

/-- C9: `Control::done(arg)` returns `Ok(Finished(arg))` for every value —
never an `Err` — and passes the borrowed `Context` through unchanged,
performing no context switch. -/
theorem c9_done_ok (α R E : Type) (ctx : α) (arg : R) :
    Control.done (E := E) ctx arg = (.Ok ⟨arg⟩, ctx) := rfl

/-- C10: dropping a `Coroutine` whose `self.0` is already `None` (a
previous `resume` returned `Complete` and cleared the `Context` borrow) is
a no-op: no context switch, no side effects, the state is unchanged. -/
theorem c10_drop_after_complete_noop (s : CoSys Y R E) (h : s.ctx = none) :
    Coroutine.drop s = ([], s) := by
  simp [Coroutine.drop, h]

/-- C1: if the coroutine holds a live child whose next slice under a
non-null `Context.arg` (set by `resume` to the transfer slot) suspends in
`Control::r#yield` with value `y`, then that `resume` returns
`Yielded(y)` — the very value the child wrote — together with the child's
side effects, and parks the child at the yield's continuation with `arg`
cleared back to null. -/
theorem c1_yield_roundtrip (s : CoSys Y R E) (st : ChildSt Y R E) (y : Y)
    (es : List E) (k : Result Unit Canceled → Client Y R E)
    (hctx : s.ctx = some st)
    (hslice : runSlice true (st.client true) = (es, .suspended y k)) :
    (Coroutine.resume s).1 = .value (.Yielded y) ∧
    (Coroutine.resume s).2.1 = es ∧
    (Coroutine.resume s).2.2 = ⟨some (.atYield k), false⟩ := by
  obtain ⟨ctx, nn⟩ := s
  dsimp only at hctx
  subst hctx
  simp [Coroutine.resume, hslice]

/-- Witness for C1: the child yields 1; `resume` returns `Yielded 1`. -/
theorem c1_yield_roundtrip_witness :
    (Coroutine.resume wS).1 = .value (.Yielded 1) ∧
    (Coroutine.resume wS).2.1 = [] ∧
    (Coroutine.resume wS).2.2 = ⟨some (.atYield wK), false⟩ :=
  c1_yield_roundtrip wS (.fresh wClient) 1 [] wK rfl rfl

/-- C2: if the child's slice under the `resume` ends with the closure
returning `Ok(Finished(r))` (its last act is `done(r)`), the trampoline
writes `Complete(r)` through the non-null `Context.arg`, that `resume`
returns `Complete(r)` and clears `self.0` to `None` (terminated), and
every subsequent `resume` panics while leaving the state fixed. -/
theorem c2_complete_then_panic (s : CoSys Y R E) (st : ChildSt Y R E) (r : R)
    (es : List E)
    (hctx : s.ctx = some st)
    (hfin : runSlice true (st.client true) = (es, .finished (.Ok ⟨r⟩))) :
    trampolineFinish (Y := Y) true (.Ok ⟨r⟩) = some (.Complete r) ∧
    (Coroutine.resume s).1 = .value (.Complete r) ∧
    (Coroutine.resume s).2.1 = es ∧
    (Coroutine.resume s).2.2.ctx = none ∧
    (Coroutine.resume (Coroutine.resume s).2.2).1 = .panicked ∧
    (Coroutine.resume (Coroutine.resume s).2.2).2.2 = (Coroutine.resume s).2.2 := by
  obtain ⟨ctx, nn⟩ := s
  dsimp only at hctx
  subst hctx
  simp [Coroutine.resume, hfin, trampolineFinish]

/-- Witness for C2: a closure that immediately calls `done(7)`. -/
theorem c2_complete_then_panic_witness :
    trampolineFinish (Y := Nat) true (.Ok ⟨7⟩) = some (.Complete 7) ∧
    (Coroutine.resume wSDone).1 = .value (.Complete 7) ∧
    (Coroutine.resume wSDone).2.1 = [] ∧
    (Coroutine.resume wSDone).2.2.ctx = none ∧
    (Coroutine.resume (Coroutine.resume wSDone).2.2).1 = .panicked ∧
    (Coroutine.resume (Coroutine.resume wSDone).2.2).2.2 = (Coroutine.resume wSDone).2.2 :=
  c2_complete_then_panic wSDone (.fresh wDone) 7 [] rfl rfl

/-- C3: dropping a coroutine suspended at a yield (with `Context.arg` null,
as it is in every reachable state outside `resume`) swaps into the child
without setting `arg`; the pending yield's post-swap null check yields
`Err(Canceled)`, so the closure's error path — with all its side effects,
e.g. destructor flags — runs to completion before the drop finishes, and
the drop releases the context with `arg` still null. -/
theorem c3_drop_suspended_cancels (s : CoSys Y R E)
    (k : Result Unit Canceled → Client Y R E)
    (hctx : s.ctx = some (.atYield k)) (hn : s.argNN = false) :
    (Coroutine.drop s).1 = (runSlice false (k (.Err ⟨⟩))).1 ∧
    (Coroutine.drop s).2 = ⟨none, false⟩ := by
  obtain ⟨ctx, nn⟩ := s
  dsimp only at hctx hn
  subst hctx
  subst hn
  simp [Coroutine.drop, ChildSt.client]

/-- Witness for C3: the error path of `wK` emits the `true` flag. -/
theorem c3_drop_suspended_cancels_witness :
    (Coroutine.drop wSAtYield).1 = (runSlice false (wK (.Err ⟨⟩))).1 ∧
    (Coroutine.drop wSAtYield).2 = ⟨none, false⟩ :=
  c3_drop_suspended_cancels wSAtYield wK rfl rfl

/-- C7: dropping a never-resumed (`fresh`) coroutine swaps into the child,
which runs the closure exactly once with the zero-initialized (null)
`Context.arg`; under a null `arg` any first yield returns `Err(Canceled)`
at once, the whole slice runs to the closure's return, and the drop
completes, releasing the context with `arg` still null. -/
theorem c7_drop_fresh_runs_closure (s : CoSys Y R E) (c : Client Y R E)
    (y : Y) (k : Result Unit Canceled → Client Y R E)
    (hctx : s.ctx = some (.fresh c)) (hn : s.argNN = false) :
    (Coroutine.drop s).1 = (runSlice false c).1 ∧
    (Coroutine.drop s).2 = ⟨none, false⟩ ∧
    runSlice false (Client.doYield y k) = runSlice false (k (.Err ⟨⟩)) := by
  obtain ⟨ctx, nn⟩ := s
  dsimp only at hctx hn
  subst hctx
  subst hn
  refine ⟨by simp [Coroutine.drop, ChildSt.client], by simp [Coroutine.drop], ?_⟩
  simp [runSlice]

/-- Witness for C7 on the fresh witness coroutine. -/
theorem c7_drop_fresh_runs_closure_witness :
    (Coroutine.drop wS).1 = (runSlice false wClient).1 ∧
    (Coroutine.drop wS).2 = ⟨none, false⟩ ∧
    runSlice false (Client.doYield 5 wK) = runSlice false (wK (.Err ⟨⟩)) :=
  c7_drop_fresh_runs_closure wS wClient 5 wK rfl rfl

/-- C8: in every state reachable through `new`/`resume`/`drop`, the
`Context.arg` pointer is null while the parent executes outside `resume`:
null right after construction, reset to null by `resume` before it
returns (it is non-null only between the slot write and the clear inside
`resume`, modelled by the slice running with `argNN = true`), and `drop`
never changes it. -/
theorem c8_arg_null_outside_resume (s : CoSys Y R E) (h : Reachable s) :
    s.argNN = false ∧
    (Coroutine.resume s).2.2.argNN = false ∧
    (Coroutine.drop s).2.argNN = s.argNN :=
  ⟨reachable_argNN_false s h,
   resume_argNN_false s (reachable_argNN_false s h),
   drop_argNN_eq s⟩

/-- Witness for C8 at a just-constructed coroutine. -/
theorem c8_arg_null_outside_resume_witness :
    wS.argNN = false ∧
    (Coroutine.resume wS).2.2.argNN = false ∧
    (Coroutine.drop wS).2.argNN = wS.argNN :=
  c8_arg_null_outside_resume wS (Reachable.init 4096 wClient wS rfl)

/-- Witness for C10 at the terminated state. -/
theorem c10_drop_after_complete_noop_witness :
    Coroutine.drop (⟨none, false⟩ : CoSys Nat Nat Unit) =
      ([], (⟨none, false⟩ : CoSys Nat Nat Unit)) :=
  c10_drop_after_complete_noop ⟨none, false⟩ rfl

end Frenetic
